import Mathlib

/-!
Verification of the pizza-game dashboard analytics core.

This file gives a shallow embedding, in Lean 4, of the analytical core of the
repository: the data models (`src/src/models/pizza_order.py`,
`src/src/models/football_match.py`, `src/src/models/correlation_result.py`),
the window-metrics / correlation engine
(`src/src/data_processing/correlation_analyzer.py`) and the pattern/anomaly
detectors (`src/src/data_processing/insight_generator.py`), together with
theorems settling the specification's claims about them.

Modelling conventions:
- timestamps are rationals measured in hours (Python `datetime` arithmetic
  with `timedelta(hours=...)` becomes rational addition/subtraction);
- Python floats are modelled as rationals; a float that may be NaN is
  modelled as `Option ℚ` with `none` standing for NaN;
- a Python constructor that validates in `__post_init__` and raises
  `ValueError` on bad fields is modelled as a total function returning
  `Option` of the record (`none` = construction failed);
- pandas DataFrames become lists of records, column selections become
  `List.map`, boolean-mask row filters become `List.filter`.
-/

-- Rational arithmetic must evaluate on concrete inputs (the witnesses run
-- the embedded functions on sample data), so the core arithmetic on ℚ is
-- restored to its default reducibility for this file.
attribute [local semireducible] Rat.add Rat.sub Rat.mul Rat.inv

/-- Embeds `DominosOrder` (src/src/models/pizza_order.py).  Fields follow the
dataclass; `pizza_types` is kept for fidelity though no claim uses it. -/
structure DominosOrder where
  order_id : String
  timestamp : ℚ
  location : String
  order_total : ℚ
  pizza_types : List String
  quantity : ℤ
  data_source : String
  deriving Repr, DecidableEq

/-- Embeds `FootballMatch` (src/src/models/football_match.py). -/
structure FootballMatch where
  match_id : String
  timestamp : ℚ
  home_team : String
  away_team : String
  home_score : ℤ
  away_score : ℤ
  event_type : String
  match_significance : String
  data_source : String
  deriving Repr, DecidableEq

/-- Embeds `FootballMatch.validate` (src/src/models/football_match.py,
lines 42-89): each conjunct is the negation of one `raise` condition, in
source order.  The Python `isinstance` checks are discharged by typing. -/
def FootballMatch.valid (m : FootballMatch) : Prop :=
  m.match_id ≠ "" ∧
  m.home_team ≠ "" ∧
  m.away_team ≠ "" ∧
  m.home_team ≠ m.away_team ∧
  0 ≤ m.home_score ∧
  0 ≤ m.away_score ∧
  m.event_type ∈ (["goal", "win", "loss", "draw"] : List String) ∧
  m.match_significance ∈ (["regular", "tournament", "final"] : List String) ∧
  m.data_source ∈ (["real", "mock"] : List String) ∧
  ¬(m.event_type = "draw" ∧ m.home_score ≠ m.away_score) ∧
  ¬(m.event_type = "win" ∧ m.home_score ≤ m.away_score) ∧
  ¬(m.event_type = "loss" ∧ m.away_score ≤ m.home_score)

instance (m : FootballMatch) : Decidable m.valid := by
  unfold FootballMatch.valid
  infer_instance

/-- Embeds `FootballMatch.__post_init__`: validation runs on construction;
a failing validation raises, so no instance is produced (`none`). -/
def mkFootballMatch (m : FootballMatch) : Option FootballMatch :=
  if m.valid then some m else none

/-- Per-window aggregate metrics of one match row, i.e. the
`{period}_order_count`, `{period}_total_volume`, `{period}_avg_order_value`,
`{period}_pizza_count`, `{period}_unique_locations`,
`{period}_orders_per_hour` columns produced by
`CorrelationAnalyzer._calculate_period_metrics`. -/
structure PeriodMetrics where
  order_count : ℕ
  total_volume : ℚ
  avg_order_value : ℚ
  pizza_count : ℤ
  unique_locations : ℕ
  orders_per_hour : ℚ
  deriving Repr, DecidableEq

/-- The all-zero metrics returned for an empty period
(src/src/data_processing/correlation_analyzer.py, lines 239-247). -/
def zeroPeriodMetrics : PeriodMetrics :=
  { order_count := 0
    total_volume := 0
    avg_order_value := 0
    pizza_count := 0
    unique_locations := 0
    orders_per_hour := 0 }

/-- Embeds `CorrelationAnalyzer._calculate_period_metrics`
(src/src/data_processing/correlation_analyzer.py, lines 228-256).
`sum`/`mean`/`nunique` on DataFrame columns become list sum, sum/length and
deduplicated length.  Note the source divides the order count by the literal
`2.0` ("Assuming 2-hour periods"), independent of any window parameter. -/
def calculatePeriodMetrics (periodOrders : List DominosOrder) : PeriodMetrics :=
  if periodOrders.isEmpty then zeroPeriodMetrics
  else
    { order_count := periodOrders.length
      total_volume := (periodOrders.map (fun o => o.order_total)).sum
      avg_order_value :=
        (periodOrders.map (fun o => o.order_total)).sum / (periodOrders.length : ℚ)
      pizza_count := (periodOrders.map (fun o => o.quantity)).sum
      unique_locations := (periodOrders.map (fun o => o.location)).dedup.length
      orders_per_hour := (periodOrders.length : ℚ) / 2 }

/-- Embeds `CorrelationAnalyzer._get_match_winner`
(src/src/data_processing/correlation_analyzer.py, lines 258-265). -/
def getMatchWinner (home_score away_score : ℤ) : String :=
  if away_score < home_score then "home"
  else if home_score < away_score then "away"
  else "draw"

/-- One row of the `metrics_df` DataFrame built by
`CorrelationAnalyzer.calculate_match_period_metrics`: the match attributes
plus the three per-window metric groups. -/
structure MatchMetricsRow where
  match_id : String
  match_timestamp : ℚ
  home_team : String
  away_team : String
  home_score : ℤ
  away_score : ℤ
  event_type : String
  match_significance : String
  data_source : String
  winner : String
  total_goals : ℤ
  is_high_scoring : Bool
  pre_match : PeriodMetrics
  during_match : PeriodMetrics
  post_match : PeriodMetrics
  deriving Repr, DecidableEq

/-- The pre-match order selection of
`calculate_match_period_metrics` (lines 179-182): timestamps in
`[T - pre_match_hours, T)`. -/
def preMatchOrders (orders : List DominosOrder) (T pre : ℚ) : List DominosOrder :=
  orders.filter (fun o => decide (T - pre ≤ o.timestamp ∧ o.timestamp < T))

/-- The during-match order selection of
`calculate_match_period_metrics` (lines 172-187): the window half-width is
`timedelta(hours=during_match_hours // 2)`, i.e. the FLOOR of half the
parameter (Python floor division), and both ends are inclusive. -/
def duringMatchOrders (orders : List DominosOrder) (T during : ℚ) : List DominosOrder :=
  orders.filter (fun o =>
    decide (T - ((Int.floor (during / 2) : ℤ) : ℚ) ≤ o.timestamp ∧
            o.timestamp ≤ T + ((Int.floor (during / 2) : ℤ) : ℚ)))

/-- The post-match order selection of
`calculate_match_period_metrics` (lines 189-192): timestamps in
`(T, T + post_match_hours]`. -/
def postMatchOrders (orders : List DominosOrder) (T post : ℚ) : List DominosOrder :=
  orders.filter (fun o => decide (T < o.timestamp ∧ o.timestamp ≤ T + post))

/-- The row built for one match by the loop body of
`calculate_match_period_metrics` (lines 165-218). -/
def matchRowFor (orders : List DominosOrder) (pre during post : ℚ)
    (m : FootballMatch) : MatchMetricsRow :=
  { match_id := m.match_id
    match_timestamp := m.timestamp
    home_team := m.home_team
    away_team := m.away_team
    home_score := m.home_score
    away_score := m.away_score
    event_type := m.event_type
    match_significance := m.match_significance
    data_source := m.data_source
    winner := getMatchWinner m.home_score m.away_score
    total_goals := m.home_score + m.away_score
    is_high_scoring := decide (3 ≤ m.home_score + m.away_score)
    pre_match := calculatePeriodMetrics (preMatchOrders orders m.timestamp pre)
    during_match := calculatePeriodMetrics (duringMatchOrders orders m.timestamp during)
    post_match := calculatePeriodMetrics (postMatchOrders orders m.timestamp post) }

/-- Embeds `CorrelationAnalyzer.calculate_match_period_metrics`
(src/src/data_processing/correlation_analyzer.py, lines 130-226): empty
orders or matches yield an empty row list; otherwise one row per match. -/
def calculateMatchPeriodMetrics (orders : List DominosOrder)
    (matchList : List FootballMatch) (pre during post : ℚ) : List MatchMetricsRow :=
  if orders.isEmpty || matchList.isEmpty then []
  else matchList.map (matchRowFor orders pre during post)

/-- Embeds `CorrelationResult` (src/src/models/correlation_result.py).
The `analysis_timestamp` wall-clock field is omitted: validation only checks
its Python type, and no claim depends on it. -/
structure CorrelationResult where
  analysis_id : String
  correlation_coefficient : ℚ
  statistical_significance : ℚ
  time_window : String
  pattern_description : String
  data_quality : ℚ
  sample_size : Option ℤ
  deriving Repr, DecidableEq

/-- The valid `time_window` tags accepted by `CorrelationResult.validate`
(src/src/models/correlation_result.py, line 64). -/
def validTimeWindows : List String :=
  ["pre_match", "during_match", "post_match", "full_match",
   "pre_to_post_match", "during_to_post_match"]

/-- The sample-size check of `CorrelationResult.validate`: absent, or a
non-negative integer. -/
def sampleSizeOk : Option ℤ → Prop
  | none => True
  | some n => 0 ≤ n

instance (o : Option ℤ) : Decidable (sampleSizeOk o) := by
  cases o with
  | none => exact isTrue trivial
  | some n => exact inferInstanceAs (Decidable (0 ≤ n))

/-- Embeds `CorrelationResult.validate`
(src/src/models/correlation_result.py, lines 42-81): each conjunct is the
negation of one `raise` condition, in source order. -/
def CorrelationResult.valid (r : CorrelationResult) : Prop :=
  r.analysis_id ≠ "" ∧
  -1 ≤ r.correlation_coefficient ∧
  r.correlation_coefficient ≤ 1 ∧
  0 ≤ r.statistical_significance ∧
  r.statistical_significance ≤ 1 ∧
  r.time_window ∈ validTimeWindows ∧
  r.pattern_description ≠ "" ∧
  0 ≤ r.data_quality ∧
  r.data_quality ≤ 100 ∧
  sampleSizeOk r.sample_size

instance (r : CorrelationResult) : Decidable r.valid := by
  unfold CorrelationResult.valid
  infer_instance

/-- Embeds `CorrelationResult.__post_init__`: construction validates; a
failing validation raises `ValueError`, so no instance is produced. -/
def mkCorrelationResult (r : CorrelationResult) : Option CorrelationResult :=
  if r.valid then some r else none

/-- Embeds `CorrelationResult.is_significant`
(src/src/models/correlation_result.py, lines 202-212): p-value strictly
below alpha. -/
def CorrelationResult.isSignificant (r : CorrelationResult) (alpha : ℚ) : Bool :=
  decide (r.statistical_significance < alpha)

/-- Whether the first list is a leading segment of the second. -/
def leadsWith : List Char → List Char → Bool
  | [], _ => true
  | _ :: _, [] => false
  | a :: as, b :: bs => a == b && leadsWith as bs

/-- Whether the first list occurs contiguously inside the second. -/
def occursIn (sub : List Char) : List Char → Bool
  | [] => leadsWith sub []
  | b :: bs => leadsWith sub (b :: bs) || occursIn sub bs

/-- Python's substring test `sub in s`, over the underlying character
lists. -/
def containsSub (s sub : String) : Bool :=
  occursIn sub.toList s.toList

/-- The time-window tag derivation of
`CorrelationAnalyzer._calculate_single_correlation` (lines 421-429):
substring match on the volume-variable name. -/
def timeWindowFromVolumeName (volume_name : String) : String :=
  if containsSub volume_name "pre_match" then "pre_match"
  else if containsSub volume_name "during_match" then "during_match"
  else if containsSub volume_name "post_match" then "post_match"
  else "full_match"

/-- Embeds `CorrelationAnalyzer._get_correlation_strength`
(src/src/data_processing/correlation_analyzer.py, lines 523-534). -/
def getCorrelationStrength (abs_correlation : ℚ) : String :=
  if abs_correlation < 1/10 then "negligible"
  else if abs_correlation < 3/10 then "weak"
  else if abs_correlation < 1/2 then "moderate"
  else if abs_correlation < 7/10 then "strong"
  else "very strong"

/-- Embeds `CorrelationAnalyzer._generate_pattern_description`
(src/src/data_processing/correlation_analyzer.py, lines 500-521).  The
decimal rendering of r and p inside the sentence is elided (no claim
inspects it); the sentence skeleton and its case analysis are kept. -/
def generatePatternDescription (correlation_coef p_value : ℚ)
    (outcome_name volume_name time_window : String) : String :=
  let strength := getCorrelationStrength |correlation_coef|
  let direction :=
    if 0 < correlation_coef then "positive"
    else if correlation_coef < 0 then "negative"
    else "no"
  let significance := if p_value < 1/20 then "significant" else "not significant"
  strength ++ " " ++ direction ++ " correlation between " ++ outcome_name ++
    " and " ++ volume_name ++ " during " ++ time_window ++ " period (" ++
    significance ++ ")"

/-- Embeds `CorrelationAnalyzer._calculate_data_quality_score`
(src/src/data_processing/correlation_analyzer.py, lines 536-552), applied to
the `data_source` column of the metrics DataFrame. -/
def calculateDataQualityScore (sources : List String) : ℚ :=
  if sources.isEmpty then 0
  else ((sources.filter (fun s => s == "real")).length : ℚ) / (sources.length : ℚ) * 100

/-- Drops the index positions where either series is NaN: the
`valid_mask` step of `_calculate_single_correlation` (lines 401-404). -/
def cleanPairs (pairs : List (Option ℚ × Option ℚ)) : List (ℚ × ℚ) :=
  pairs.filterMap (fun pr =>
    match pr with
    | (some v, some o) => some (v, o)
    | _ => none)

/-- Embeds `CorrelationAnalyzer._calculate_single_correlation`
(src/src/data_processing/correlation_analyzer.py, lines 400-452).

The scipy statistical kernel (`stats.pointbiserialr` for a boolean outcome
series, `stats.pearsonr` otherwise — external library code, not part of this
repository) is abstracted as the `kernel` argument: given the dtype flag and
the cleaned pairs it returns the coefficient and p-value, `none` standing
for NaN.  Everything downstream of the kernel is translated from source:
the < 3 observations guard, the NaN rejection, the time-window tag, the
description, the data-quality score, and the validating construction of
`CorrelationResult` (a `ValueError` raised by the constructor is caught by
the function's `except` clause, which returns `None`).  `analysis_id` is a
fresh uuid in the source; any fixed non-empty placeholder is faithful. -/
def calculateSingleCorrelation
    (kernel : Bool → List (ℚ × ℚ) → Option ℚ × Option ℚ)
    (pairs : List (Option ℚ × Option ℚ)) (isBoolOutcome : Bool)
    (outcome_name volume_name : String) (sources : List String) :
    Option CorrelationResult :=
  if (cleanPairs pairs).length < 3 then none
  else
    match kernel isBoolOutcome (cleanPairs pairs) with
    | (some correlation_coef, some p_value) =>
        mkCorrelationResult
          { analysis_id := "generated-uuid"
            correlation_coefficient := correlation_coef
            statistical_significance := p_value
            time_window := timeWindowFromVolumeName volume_name
            pattern_description := generatePatternDescription correlation_coef
              p_value outcome_name volume_name
              (timeWindowFromVolumeName volume_name)
            data_quality := calculateDataQualityScore sources
            sample_size := some ((cleanPairs pairs).length : ℤ) }
    | _ => none

/-- The per-finding transform inside
`CorrelationAnalyzer.detect_statistical_significance` (lines 576-585): a new
`CorrelationResult` is constructed carrying every field of the original
unchanged except the description, which gains the "SIGNIFICANT: " prefix
(the reconstruction revalidates, which always succeeds on a valid input
since only the non-empty description changes). -/
def enhanceSignificant (r : CorrelationResult) : CorrelationResult :=
  { r with pattern_description := "SIGNIFICANT: " ++ r.pattern_description }

/-- Embeds `CorrelationAnalyzer.detect_statistical_significance`
(src/src/data_processing/correlation_analyzer.py, lines 554-592): the loop
keeps exactly the findings with `is_significant(alpha)` and appends the
enhanced copy of each; the input list and its members are left untouched. -/
def detectStatisticalSignificance (results : List CorrelationResult)
    (alpha : ℚ) : List CorrelationResult :=
  match results with
  | [] => []
  | r :: rest =>
      if r.isSignificant alpha then
        enhanceSignificant r :: detectStatisticalSignificance rest alpha
      else detectStatisticalSignificance rest alpha

/-- The `goal_differential` column added by
`CorrelationAnalyzer.classify_football_events` (line 616). -/
def goalDifferential (m : FootballMatch) : ℤ :=
  |m.home_score - m.away_score|

/-- The `total_goals` column added by
`CorrelationAnalyzer.classify_football_events` (line 617). -/
def totalGoals (m : FootballMatch) : ℤ :=
  m.home_score + m.away_score

/-- Embeds `CorrelationAnalyzer._calculate_event_impact_score`
(src/src/data_processing/correlation_analyzer.py, lines 694-734): the four
additive bonuses in source order, the sum capped at 100. -/
def calculateEventImpactScore (m : FootballMatch) : ℤ :=
  let score : ℤ := 0
  let score := score + min (totalGoals m * 5) 30
  let score := score +
    (if goalDifferential m = 0 then 20
     else if goalDifferential m = 1 then 15
     else if goalDifferential m = 2 then 10
     else 0)
  let score := score +
    (if m.match_significance = "final" then 30
     else if m.match_significance = "tournament" then 20
     else 10)
  let score := score +
    (if 5 ≤ totalGoals m then 20
     else if 3 ≤ totalGoals m then 10
     else 0)
  min score 100

/-- Embeds `TemporalPattern` for the fields the claims inspect
(src/src/data_processing/insight_generator.py); the uuid `pattern_id`, the
decimal-formatted `description` and the `data_source_breakdown` mapping are
omitted (no claim depends on them). -/
structure TemporalPattern where
  time_period : String
  pattern_type : String
  magnitude : ℚ
  confidence : ℚ
  sample_size : ℕ
  deriving Repr, DecidableEq

/-- Embeds `InsightGenerator._calculate_pattern_confidence`
(src/src/data_processing/insight_generator.py, lines 379-388). -/
def calculatePatternConfidence (patternInstances totalInstances : ℕ) : ℚ :=
  if totalInstances = 0 then 0
  else
    min (((patternInstances : ℚ) / (totalInstances : ℚ)) *
           min ((patternInstances : ℚ) / 10) 1) 1

/-- pandas `Series.mean` over a nonempty column: sum divided by length
(the detectors below only take means of nonempty selections). -/
def listMeanQ (xs : List ℚ) : ℚ :=
  xs.sum / (xs.length : ℚ)

/-- The per-outcome loop body of
`InsightGenerator._analyze_outcome_impact_patterns`
(src/src/data_processing/insight_generator.py, lines 322-348): for one
value of `outcome`, the subset of rows won by that outcome is compared with
the overall post-match order-count mean, and a spike pattern is produced
when the subset has at least 3 matches and its mean exceeds 1.2 times the
overall mean. -/
def outcomeImpactPattern (rows : List MatchMetricsRow) (outcome : String) :
    Option TemporalPattern :=
  let outcome_matches := rows.filter (fun r => r.winner == outcome)
  if 3 ≤ outcome_matches.length then
    let outcome_mean :=
      listMeanQ (outcome_matches.map (fun r => (r.post_match.order_count : ℚ)))
    let overall_mean :=
      listMeanQ (rows.map (fun r => (r.post_match.order_count : ℚ)))
    if overall_mean * (6/5) < outcome_mean then
      some
        { time_period := "post_match"
          pattern_type := "spike"
          magnitude := min ((outcome_mean - overall_mean) / overall_mean * 100) 100
          confidence := calculatePatternConfidence outcome_matches.length rows.length
          sample_size := outcome_matches.length }
    else none
  else none

/-- The high-scoring comparison of
`InsightGenerator._analyze_outcome_impact_patterns` (lines 350-372): both
subsets need at least 3 matches and the high-scoring post-match mean must
exceed 1.15 times the regular-scoring mean. -/
def highScoringImpactPattern (rows : List MatchMetricsRow) :
    Option TemporalPattern :=
  let high_scoring := rows.filter (fun r => r.is_high_scoring == true)
  let regular_scoring := rows.filter (fun r => r.is_high_scoring == false)
  if 3 ≤ high_scoring.length ∧ 3 ≤ regular_scoring.length then
    let high_scoring_orders :=
      listMeanQ (high_scoring.map (fun r => (r.post_match.order_count : ℚ)))
    let regular_orders :=
      listMeanQ (regular_scoring.map (fun r => (r.post_match.order_count : ℚ)))
    if regular_orders * (23/20) < high_scoring_orders then
      some
        { time_period := "post_match"
          pattern_type := "spike"
          magnitude := min ((high_scoring_orders - regular_orders) / regular_orders * 100) 100
          confidence := calculatePatternConfidence high_scoring.length rows.length
          sample_size := high_scoring.length }
    else none
  else none

/-- Embeds `InsightGenerator._analyze_outcome_impact_patterns`
(src/src/data_processing/insight_generator.py, lines 306-377): the three
per-outcome checks in loop order, then the high-scoring comparison.  The
`'winner' in metrics_df.columns` guards always hold on the typed rows. -/
def analyzeOutcomeImpactPatterns (rows : List MatchMetricsRow) :
    List TemporalPattern :=
  (["home", "away", "draw"].filterMap (outcomeImpactPattern rows)) ++
    (highScoringImpactPattern rows).toList

/-- Embeds `AnomalyDetection` for the fields the claims inspect
(src/src/data_processing/insight_generator.py); the uuid `anomaly_id`, the
dollar-formatted `description` and the free-form `context` mapping are
omitted, but the order id and location those carry are kept as fields. -/
structure AnomalyDetection where
  timestamp : ℚ
  anomaly_type : String
  severity : String
  data_source : String
  confidence_score : ℚ
  order_id : String
  location : String
  deriving Repr, DecidableEq

/-- pandas `Series.quantile(q)` with the default linear interpolation:
sort the values, take position `q * (n - 1)`, and interpolate between the
neighbouring order statistics. -/
def quantileLinear (xs : List ℚ) (q : ℚ) : ℚ :=
  let s := xs.insertionSort (fun a b => a ≤ b)
  if s.isEmpty then 0
  else
    let pos := q * ((s.length - 1 : ℕ) : ℚ)
    let i := (Int.floor pos).toNat
    let frac := pos - ((Int.floor pos : ℤ) : ℚ)
    match s.get? (i + 1) with
    | some hi => s.getD i 0 + frac * (hi - s.getD i 0)
    | none => s.getD i 0

/-- The lower outlier fence `Q1 - 3*IQR` used by
`InsightGenerator._detect_order_volume_anomalies` (lines 916-924). -/
def iqrLowerFence (totals : List ℚ) : ℚ :=
  quantileLinear totals (1/4) -
    3 * (quantileLinear totals (3/4) - quantileLinear totals (1/4))

/-- The upper outlier fence `Q3 + 3*IQR` used by
`InsightGenerator._detect_order_volume_anomalies` (lines 916-924). -/
def iqrUpperFence (totals : List ℚ) : ℚ :=
  quantileLinear totals (3/4) +
    3 * (quantileLinear totals (3/4) - quantileLinear totals (1/4))

/-- Embeds `InsightGenerator._detect_order_volume_anomalies`
(src/src/data_processing/insight_generator.py, lines 904-951): with no
orders nothing is flagged; otherwise every order whose total is strictly
below `Q1 - 3*IQR` or strictly above `Q3 + 3*IQR` yields one anomaly
record, `order_spike`/`high` above the upper fence and
`order_dip`/`medium` otherwise, with confidence 0.8. -/
def detectOrderVolumeAnomalies (orders : List DominosOrder) :
    List AnomalyDetection :=
  if orders.isEmpty then []
  else
    let totals := orders.map (fun o => o.order_total)
    let outliers := orders.filter (fun o =>
      decide (o.order_total < iqrLowerFence totals) ||
      decide (iqrUpperFence totals < o.order_total))
    outliers.map (fun o =>
      { timestamp := o.timestamp
        anomaly_type :=
          if iqrUpperFence totals < o.order_total then "order_spike"
          else "order_dip"
        severity :=
          if iqrUpperFence totals < o.order_total then "high"
          else "medium"
        data_source := o.data_source
        confidence_score := 4/5
        order_id := o.order_id
        location := o.location })

/-- A valid home-win match used to instantiate the consistency theorem. -/
def cexMatchOK : FootballMatch :=
  { match_id := "m-ok"
    timestamp := 0
    home_team := "Home FC"
    away_team := "Away FC"
    home_score := 2
    away_score := 1
    event_type := "win"
    match_significance := "regular"
    data_source := "mock" }

/-- An inconsistent match (event_type "win" but the home side did not score
more) used to instantiate the consistency theorem. -/
def cexMatchBad : FootballMatch :=
  { match_id := "m-bad"
    timestamp := 0
    home_team := "Home FC"
    away_team := "Away FC"
    home_score := 0
    away_score := 1
    event_type := "win"
    match_significance := "regular"
    data_source := "mock" }

/-- C3: every constructed `FootballMatch` satisfies the score/outcome
consistency invariant — event_type "win" implies `home_score > away_score`,
"loss" implies `home_score < away_score`, "draw" implies equal scores — and
constructing a match whose outcome is inconsistent with its scores fails
validation, producing no instance. -/
theorem match_outcome_consistency :
    (∀ m m' : FootballMatch, mkFootballMatch m = some m' →
      (m'.event_type = "win" → m'.away_score < m'.home_score) ∧
      (m'.event_type = "loss" → m'.home_score < m'.away_score) ∧
      (m'.event_type = "draw" → m'.home_score = m'.away_score)) ∧
    (∀ m : FootballMatch,
      ((m.event_type = "win" ∧ m.home_score ≤ m.away_score) ∨
       (m.event_type = "loss" ∧ m.away_score ≤ m.home_score) ∨
       (m.event_type = "draw" ∧ m.home_score ≠ m.away_score)) →
      mkFootballMatch m = none) := by
  constructor
  · intro m m' h
    unfold mkFootballMatch at h
    split at h
    case isTrue hv =>
      injection h with h
      subst h
      obtain ⟨-, -, -, -, -, -, -, -, -, hdraw, hwin, hloss⟩ := hv
      refine ⟨?_, ?_, ?_⟩
      · intro he
        by_contra hlt
        exact hwin ⟨he, not_lt.mp hlt⟩
      · intro he
        by_contra hlt
        exact hloss ⟨he, not_lt.mp hlt⟩
      · intro he
        by_contra hne
        exact hdraw ⟨he, hne⟩
    case isFalse => exact absurd h (by simp)
  · intro m hbad
    unfold mkFootballMatch
    rw [if_neg]
    intro hv
    obtain ⟨-, -, -, -, -, -, -, -, -, hdraw, hwin, hloss⟩ := hv
    rcases hbad with ⟨he, hle⟩ | ⟨he, hle⟩ | ⟨he, hne⟩
    · exact hwin ⟨he, hle⟩
    · exact hloss ⟨he, hle⟩
    · exact hdraw ⟨he, hne⟩

/-- Witness for `match_outcome_consistency`: a concrete valid home win
satisfies the invariant, and a concrete inconsistent match (a "win" with
scores 0-1) fails construction. -/
theorem match_outcome_consistency_witness :
    ((cexMatchOK.event_type = "win" →
        cexMatchOK.away_score < cexMatchOK.home_score) ∧
     (cexMatchOK.event_type = "loss" →
        cexMatchOK.home_score < cexMatchOK.away_score) ∧
     (cexMatchOK.event_type = "draw" →
        cexMatchOK.home_score = cexMatchOK.away_score)) ∧
    mkFootballMatch cexMatchBad = none :=
  ⟨match_outcome_consistency.1 cexMatchOK cexMatchOK (by decide),
   match_outcome_consistency.2 cexMatchBad (Or.inl ⟨rfl, by decide⟩)⟩

/-- A match record with event_type "goal" and otherwise valid fields,
parameterised by its scores. -/
def goalEventMatch (h a : ℤ) : FootballMatch :=
  { match_id := "m-goal"
    timestamp := 0
    home_team := "Home FC"
    away_team := "Away FC"
    home_score := h
    away_score := a
    event_type := "goal"
    match_significance := "regular"
    data_source := "mock" }

/-- C10: `FootballMatch` construction accepts the fourth event_type value
"goal", and for it no score-consistency rule is enforced — any pair of
non-negative scores is accepted, so the accepted outcome domain is strictly
larger than the win/loss/draw set. -/
theorem goal_event_type_accepted :
    ∀ h a : ℤ, 0 ≤ h → 0 ≤ a →
      mkFootballMatch (goalEventMatch h a) = some (goalEventMatch h a) ∧
      (goalEventMatch h a).event_type ∉ (["win", "loss", "draw"] : List String) := by
  intro h a hh ha
  have hvalid : (goalEventMatch h a).valid := by
    unfold FootballMatch.valid
    dsimp only [goalEventMatch]
    refine ⟨by decide, by decide, by decide, by decide, hh, ha,
      by decide, by decide, by decide, ?_, ?_, ?_⟩
    · rintro ⟨hc, -⟩
      exact absurd hc (by decide)
    · rintro ⟨hc, -⟩
      exact absurd hc (by decide)
    · rintro ⟨hc, -⟩
      exact absurd hc (by decide)
  refine ⟨?_, ?_⟩
  · unfold mkFootballMatch
    rw [if_pos hvalid]
  · dsimp only [goalEventMatch]
    decide

/-- Witness for `goal_event_type_accepted`: event_type "goal" with scores
2-0 (which would be inconsistent for any of win/loss/draw rules other than
"win") constructs successfully. -/
theorem goal_event_type_accepted_witness :
    mkFootballMatch (goalEventMatch 2 0) = some (goalEventMatch 2 0) ∧
    (goalEventMatch 2 0).event_type ∉ (["win", "loss", "draw"] : List String) :=
  goal_event_type_accepted 2 0 (by decide) (by decide)

/-- In every branch of `_calculate_period_metrics` the orders-per-hour field
is the order count divided by two. -/
theorem periodMetrics_rate_eq_half_count (l : List DominosOrder) :
    (calculatePeriodMetrics l).orders_per_hour =
      ((calculatePeriodMetrics l).order_count : ℚ) / 2 := by
  unfold calculatePeriodMetrics
  split
  · simp [zeroPeriodMetrics]
  · rfl

/-- In every branch of `_calculate_period_metrics` the order count is the
number of orders selected for the period. -/
theorem periodMetrics_count_eq_length (l : List DominosOrder) :
    (calculatePeriodMetrics l).order_count = l.length := by
  unfold calculatePeriodMetrics
  split
  case isTrue h => simp_all [zeroPeriodMetrics, List.isEmpty_iff]
  case isFalse h => rfl

/-- A single mock order at hour 1, used to refute the claimed
orders-per-hour normalisation. -/
def c1Order : DominosOrder :=
  { order_id := "o1"
    timestamp := 1
    location := "Loc1"
    order_total := 10
    pizza_types := ["margherita"]
    quantity := 1
    data_source := "mock" }

/-- A match at hour 2 (a 1-0 home win), used with a 4-hour pre-match
window. -/
def c1Match : FootballMatch :=
  { match_id := "m1"
    timestamp := 2
    home_team := "Home FC"
    away_team := "Away FC"
    home_score := 1
    away_score := 0
    event_type := "win"
    match_significance := "regular"
    data_source := "mock" }

/-- C1 counterexample: with `pre_match_hours = 4` and exactly one order in
the pre-match window, the produced row reports `orders_per_hour = 1/2`
(the source always divides by the literal 2.0, "Assuming 2-hour periods"),
whereas the claimed `order_count / pre_match_hours` would be `1/4`. -/
theorem orders_per_hour_fixed_divisor_cex :
    ((calculateMatchPeriodMetrics [c1Order] [c1Match] 4 2 2).map
        (fun r => (r.pre_match.order_count, r.pre_match.orders_per_hour))
      = [(1, 1/2)]) ∧
    ¬((1 : ℚ) / 2 = 1 / 4) := by
  refine ⟨by decide, by norm_num⟩

/-- C1 amended: every produced row's `orders_per_hour`, for each of the
three windows, is that window's order count divided by the fixed constant
2 — independent of the configured window-hour parameters (it agrees with
count/duration only at the default 2-hour windows). -/
theorem orders_per_hour_amended :
    ∀ (orders : List DominosOrder) (matchList : List FootballMatch)
      (pre during post : ℚ) (r : MatchMetricsRow),
      r ∈ calculateMatchPeriodMetrics orders matchList pre during post →
      r.pre_match.orders_per_hour = (r.pre_match.order_count : ℚ) / 2 ∧
      r.during_match.orders_per_hour = (r.during_match.order_count : ℚ) / 2 ∧
      r.post_match.orders_per_hour = (r.post_match.order_count : ℚ) / 2 := by
  intro orders matchList pre during post r hr
  unfold calculateMatchPeriodMetrics at hr
  split at hr
  · simp at hr
  · obtain ⟨m, -, rfl⟩ := List.mem_map.mp hr
    exact ⟨periodMetrics_rate_eq_half_count _, periodMetrics_rate_eq_half_count _,
      periodMetrics_rate_eq_half_count _⟩

/-- Witness for `orders_per_hour_amended` at the concrete C1 input. -/
theorem orders_per_hour_amended_witness :
    (matchRowFor [c1Order] 4 2 2 c1Match).pre_match.orders_per_hour
      = ((matchRowFor [c1Order] 4 2 2 c1Match).pre_match.order_count : ℚ) / 2 ∧
    (matchRowFor [c1Order] 4 2 2 c1Match).during_match.orders_per_hour
      = ((matchRowFor [c1Order] 4 2 2 c1Match).during_match.order_count : ℚ) / 2 ∧
    (matchRowFor [c1Order] 4 2 2 c1Match).post_match.orders_per_hour
      = ((matchRowFor [c1Order] 4 2 2 c1Match).post_match.order_count : ℚ) / 2 :=
  orders_per_hour_amended [c1Order] [c1Match] 4 2 2 _ (by decide)

/-- A mock order 1.25 hours after kickoff, inside the claimed
`[T - 1.5, T + 1.5]` during-window for `during_match_hours = 3` but outside
the code's `[T - 1, T + 1]` window. -/
def c2Order : DominosOrder :=
  { order_id := "o2"
    timestamp := 5/4
    location := "Loc1"
    order_total := 10
    pizza_types := ["margherita"]
    quantity := 1
    data_source := "mock" }

/-- A match at hour 0 (a 1-0 home win). -/
def c2Match : FootballMatch :=
  { match_id := "m2"
    timestamp := 0
    home_team := "Home FC"
    away_team := "Away FC"
    home_score := 1
    away_score := 0
    event_type := "win"
    match_significance := "regular"
    data_source := "mock" }

/-- C2 counterexample: with `during_match_hours = 3`, an order 1.25 hours
after the match lies inside the claimed exactly-halved window
`[T - 3/2, T + 3/2]`, yet the produced row counts zero during-match orders
(Python floor division `3 // 2 = 1` shrinks the window to `[T-1, T+1]`). -/
theorem during_window_halving_cex :
    ((calculateMatchPeriodMetrics [c2Order] [c2Match] 2 3 2).map
        (fun r => r.during_match.order_count) = [0]) ∧
    (c2Match.timestamp - 3/2 ≤ c2Order.timestamp ∧
      c2Order.timestamp ≤ c2Match.timestamp + 3/2) := by
  refine ⟨by decide, by decide⟩

/-- C2 amended: an order is assigned to the pre-match window iff its
timestamp is in `[T - pre_hours, T)`, to the during-match window iff it is
in `[T - floor(during_hours/2), T + floor(during_hours/2)]` (Python floor
division of the parameter by 2, not exact halving), and to the post-match
window iff it is in `(T, T + post_hours]`; the produced row's per-window
order counts are exactly the sizes of these selections. -/
theorem window_assignment_amended :
    ∀ (orders : List DominosOrder) (pre during post : ℚ) (m : FootballMatch)
      (o : DominosOrder),
      (o ∈ preMatchOrders orders m.timestamp pre ↔
        o ∈ orders ∧ m.timestamp - pre ≤ o.timestamp ∧
          o.timestamp < m.timestamp) ∧
      (o ∈ duringMatchOrders orders m.timestamp during ↔
        o ∈ orders ∧
          m.timestamp - ((Int.floor (during / 2) : ℤ) : ℚ) ≤ o.timestamp ∧
          o.timestamp ≤ m.timestamp + ((Int.floor (during / 2) : ℤ) : ℚ)) ∧
      (o ∈ postMatchOrders orders m.timestamp post ↔
        o ∈ orders ∧ m.timestamp < o.timestamp ∧
          o.timestamp ≤ m.timestamp + post) ∧
      (matchRowFor orders pre during post m).pre_match.order_count
        = (preMatchOrders orders m.timestamp pre).length ∧
      (matchRowFor orders pre during post m).during_match.order_count
        = (duringMatchOrders orders m.timestamp during).length ∧
      (matchRowFor orders pre during post m).post_match.order_count
        = (postMatchOrders orders m.timestamp post).length := by
  intro orders pre during post m o
  refine ⟨?_, ?_, ?_, periodMetrics_count_eq_length _,
    periodMetrics_count_eq_length _, periodMetrics_count_eq_length _⟩
  · unfold preMatchOrders
    simp [List.mem_filter, and_assoc]
  · unfold duringMatchOrders
    simp [List.mem_filter, and_assoc]
  · unfold postMatchOrders
    simp [List.mem_filter, and_assoc]

/-- C9: for nonempty inputs, each match's row is present in the output, and
a window with zero matching orders carries exactly all-zero metrics
(count 0, volume 0, average 0, pizza count 0, locations 0, rate 0) rather
than missing fields. -/
theorem zero_order_window_zero_fill :
    ∀ (orders : List DominosOrder) (matchList : List FootballMatch)
      (pre during post : ℚ) (m : FootballMatch),
      orders ≠ [] → m ∈ matchList →
      matchRowFor orders pre during post m ∈
        calculateMatchPeriodMetrics orders matchList pre during post ∧
      (preMatchOrders orders m.timestamp pre = [] →
        (matchRowFor orders pre during post m).pre_match =
          { order_count := 0, total_volume := 0, avg_order_value := 0,
            pizza_count := 0, unique_locations := 0, orders_per_hour := 0 }) ∧
      (duringMatchOrders orders m.timestamp during = [] →
        (matchRowFor orders pre during post m).during_match =
          { order_count := 0, total_volume := 0, avg_order_value := 0,
            pizza_count := 0, unique_locations := 0, orders_per_hour := 0 }) ∧
      (postMatchOrders orders m.timestamp post = [] →
        (matchRowFor orders pre during post m).post_match =
          { order_count := 0, total_volume := 0, avg_order_value := 0,
            pizza_count := 0, unique_locations := 0, orders_per_hour := 0 }) := by
  intro orders matchList pre during post m ho hm
  refine ⟨?_, ?_, ?_, ?_⟩
  · unfold calculateMatchPeriodMetrics
    rw [if_neg]
    · exact List.mem_map_of_mem _ hm
    · simp [List.isEmpty_iff, ho]
      intro hml
      rw [hml] at hm
      simp at hm
  · intro h
    show calculatePeriodMetrics (preMatchOrders orders m.timestamp pre) = _
    rw [h]
    rfl
  · intro h
    show calculatePeriodMetrics (duringMatchOrders orders m.timestamp during) = _
    rw [h]
    rfl
  · intro h
    show calculatePeriodMetrics (postMatchOrders orders m.timestamp post) = _
    rw [h]
    rfl

/-- An order far away from any match window (hour 100). -/
def c9Order : DominosOrder :=
  { order_id := "o9"
    timestamp := 100
    location := "Loc1"
    order_total := 10
    pizza_types := ["margherita"]
    quantity := 1
    data_source := "mock" }

/-- Witness for `zero_order_window_zero_fill`: a match at hour 0 with the
only order at hour 100 has all three windows empty and all-zero metrics. -/
theorem zero_order_window_zero_fill_witness :
    matchRowFor [c9Order] 2 2 2 c2Match ∈
      calculateMatchPeriodMetrics [c9Order] [c2Match] 2 2 2 ∧
    (matchRowFor [c9Order] 2 2 2 c2Match).pre_match =
      { order_count := 0, total_volume := 0, avg_order_value := 0,
        pizza_count := 0, unique_locations := 0, orders_per_hour := 0 } ∧
    (matchRowFor [c9Order] 2 2 2 c2Match).during_match =
      { order_count := 0, total_volume := 0, avg_order_value := 0,
        pizza_count := 0, unique_locations := 0, orders_per_hour := 0 } ∧
    (matchRowFor [c9Order] 2 2 2 c2Match).post_match =
      { order_count := 0, total_volume := 0, avg_order_value := 0,
        pizza_count := 0, unique_locations := 0, orders_per_hour := 0 } := by
  have h := zero_order_window_zero_fill [c9Order] [c2Match] 2 2 2 c2Match
    (by decide) (by decide)
  exact ⟨h.1, h.2.1 (by decide), h.2.2.1 (by decide), h.2.2.2 (by decide)⟩

/-- The loop of `detect_statistical_significance` keeps exactly the
significant findings, in order, each replaced by its enhanced copy. -/
theorem detect_sig_eq_filter_map (results : List CorrelationResult) (alpha : ℚ) :
    detectStatisticalSignificance results alpha =
      (results.filter (fun r => r.isSignificant alpha)).map enhanceSignificant := by
  induction results with
  | nil => rfl
  | cons r rest ih =>
    unfold detectStatisticalSignificance
    by_cases h : r.isSignificant alpha
    · simp [h, ih]
    · simp [h, ih]

/-- C5: the significance filter returns exactly the findings with
`p_value < alpha`, each as a new instance whose description is the original
prefixed with "SIGNIFICANT: " and whose other fields are unchanged (the
input findings are values and are never mutated in this pure embedding,
matching the source's reconstruction of fresh instances). -/
theorem significance_filter_spec :
    ∀ (results : List CorrelationResult) (alpha : ℚ),
      detectStatisticalSignificance results alpha =
        (results.filter (fun r => r.isSignificant alpha)).map enhanceSignificant ∧
      ∀ r : CorrelationResult,
        (r.isSignificant alpha = true ↔ r.statistical_significance < alpha) ∧
        (enhanceSignificant r).analysis_id = r.analysis_id ∧
        (enhanceSignificant r).correlation_coefficient =
          r.correlation_coefficient ∧
        (enhanceSignificant r).statistical_significance =
          r.statistical_significance ∧
        (enhanceSignificant r).time_window = r.time_window ∧
        (enhanceSignificant r).data_quality = r.data_quality ∧
        (enhanceSignificant r).sample_size = r.sample_size ∧
        (enhanceSignificant r).pattern_description =
          "SIGNIFICANT: " ++ r.pattern_description := by
  intro results alpha
  refine ⟨detect_sig_eq_filter_map results alpha, ?_⟩
  intro r
  refine ⟨?_, rfl, rfl, rfl, rfl, rfl, rfl, rfl⟩
  simp [CorrelationResult.isSignificant]

/-- The additive impact formula exactly as the claim states it: goals term
capped at 30, closeness bonus, significance bonus, scoring bonus, with the
sum clamped to at most 100. -/
def claimImpactFormula (total diff : ℤ) (significance : String) : ℤ :=
  min
    (min (total * 5) 30 +
      (if diff = 0 then 20 else if diff = 1 then 15 else if diff = 2 then 10 else 0) +
      (if significance = "final" then 30
       else if significance = "tournament" then 20
       else 10) +
      (if 5 ≤ total then 20 else if 3 ≤ total then 10 else 0))
    100

/-- C6: the classifier's impact score equals the claimed additive formula on
every match, and any final that is a draw with at least 6 total goals
scores exactly 100. -/
theorem impact_score_formula :
    (∀ m : FootballMatch,
      calculateEventImpactScore m =
        claimImpactFormula (totalGoals m) (goalDifferential m)
          m.match_significance) ∧
    (∀ m : FootballMatch,
      m.match_significance = "final" → m.home_score = m.away_score →
      6 ≤ totalGoals m → calculateEventImpactScore m = 100) := by
  constructor
  · intro m
    unfold calculateEventImpactScore claimImpactFormula
    ring_nf
  · intro m hf hd h6
    have hdiff : goalDifferential m = 0 := by
      unfold goalDifferential
      rw [hd]
      simp
    have h5 : (5 : ℤ) ≤ totalGoals m := le_trans (by norm_num) h6
    have hmin : min (totalGoals m * 5) 30 = 30 := by
      rw [min_eq_right]
      linarith
    simp [calculateEventImpactScore, hdiff, hf, hmin, h5]

/-- A 3-3 draw in a final, realising the impact-score boundary case. -/
def c6Match : FootballMatch :=
  { match_id := "m6"
    timestamp := 0
    home_team := "Home FC"
    away_team := "Away FC"
    home_score := 3
    away_score := 3
    event_type := "draw"
    match_significance := "final"
    data_source := "mock" }

/-- Witness for `impact_score_formula`: the 3-3 final scores exactly 100. -/
theorem impact_score_formula_witness :
    calculateEventImpactScore c6Match = 100 :=
  impact_score_formula.2 c6Match rfl rfl (by decide)

/-- C4: for any statistical kernel and any variable pair, the correlation
step emits no finding when fewer than 3 cleaned paired observations remain
or when the kernel's coefficient or p-value is NaN (and, being a total
function, it raises no error); and every finding it does emit satisfies
`-1 ≤ coefficient ≤ 1` and `0 ≤ p_value ≤ 1` (out-of-range kernel output is
suppressed by the validating construction, whose `ValueError` the source
catches and turns into `None`). -/
theorem single_correlation_guards :
    ∀ (kernel : Bool → List (ℚ × ℚ) → Option ℚ × Option ℚ)
      (pairs : List (Option ℚ × Option ℚ)) (isBoolOutcome : Bool)
      (outcome_name volume_name : String) (sources : List String),
      ((cleanPairs pairs).length < 3 →
        calculateSingleCorrelation kernel pairs isBoolOutcome outcome_name
          volume_name sources = none) ∧
      (((kernel isBoolOutcome (cleanPairs pairs)).1 = none ∨
          (kernel isBoolOutcome (cleanPairs pairs)).2 = none) →
        calculateSingleCorrelation kernel pairs isBoolOutcome outcome_name
          volume_name sources = none) ∧
      (∀ r : CorrelationResult,
        calculateSingleCorrelation kernel pairs isBoolOutcome outcome_name
          volume_name sources = some r →
        -1 ≤ r.correlation_coefficient ∧ r.correlation_coefficient ≤ 1 ∧
        0 ≤ r.statistical_significance ∧ r.statistical_significance ≤ 1) := by
  intro kernel pairs isBoolOutcome outcome_name volume_name sources
  refine ⟨?_, ?_, ?_⟩
  · intro h
    unfold calculateSingleCorrelation
    rw [if_pos h]
  · intro h
    unfold calculateSingleCorrelation
    split
    · rfl
    · rcases hk : kernel isBoolOutcome (cleanPairs pairs) with ⟨c, p⟩
      rw [hk] at h
      cases c with
      | none => rfl
      | some cv =>
        cases p with
        | none => rfl
        | some pv =>
          rcases h with h | h <;> simp at h
  · intro r h
    unfold calculateSingleCorrelation at h
    split at h
    · exact absurd h (by simp)
    · split at h
      case h_2 => exact absurd h (by simp)
      case h_1 cv pv hk =>
        unfold mkCorrelationResult at h
        split at h
        case isTrue hv =>
          injection h with h
          subst h
          obtain ⟨-, h1, h2, h3, h4, -, -, -, -, -⟩ := hv
          exact ⟨h1, h2, h3, h4⟩
        case isFalse => exact absurd h (by simp)

/-- A kernel returning a fixed in-range coefficient and p-value. -/
def c4Kernel : Bool → List (ℚ × ℚ) → Option ℚ × Option ℚ :=
  fun _ _ => (some (1/2), some (1/100))

/-- A kernel whose coefficient is NaN (zero-variance case). -/
def c4KernelNaN : Bool → List (ℚ × ℚ) → Option ℚ × Option ℚ :=
  fun _ _ => (none, some 0)

/-- Two paired observations: below the 3-observation minimum. -/
def c4PairsShort : List (Option ℚ × Option ℚ) :=
  [(some 1, some 0), (some 2, some 1)]

/-- Three clean paired observations. -/
def c4Pairs : List (Option ℚ × Option ℚ) :=
  [(some 1, some 0), (some 2, some 1), (some 3, some 0)]

/-- The finding produced by `c4Kernel` on `c4Pairs` with an all-mock
metrics row set. -/
def c4Result : CorrelationResult :=
  { analysis_id := "generated-uuid"
    correlation_coefficient := 1/2
    statistical_significance := 1/100
    time_window := "post_match"
    pattern_description := generatePatternDescription (1/2) (1/100)
      "home_wins" "post_match_order_count" "post_match"
    data_quality := 0
    sample_size := some 3 }

/-- Witness for `single_correlation_guards`: two observations produce no
finding; a NaN coefficient produces no finding; and the concrete finding
produced from three observations has in-range coefficient and p-value. -/
theorem single_correlation_guards_witness :
    calculateSingleCorrelation c4Kernel c4PairsShort true "home_wins"
      "post_match_order_count" ["mock"] = none ∧
    calculateSingleCorrelation c4KernelNaN c4Pairs true "home_wins"
      "post_match_order_count" ["mock"] = none ∧
    (-1 ≤ c4Result.correlation_coefficient ∧
      c4Result.correlation_coefficient ≤ 1 ∧
      0 ≤ c4Result.statistical_significance ∧
      c4Result.statistical_significance ≤ 1) :=
  ⟨(single_correlation_guards c4Kernel c4PairsShort true "home_wins"
      "post_match_order_count" ["mock"]).1 (by decide),
   (single_correlation_guards c4KernelNaN c4Pairs true "home_wins"
      "post_match_order_count" ["mock"]).2.1 (Or.inl rfl),
   (single_correlation_guards c4Kernel c4Pairs true "home_wins"
      "post_match_order_count" ["mock"]).2.2 c4Result (by decide)⟩

/-- The five orders of end-to-end scenario B: totals 10,10,10,10,100 within
one window, one clear outlier. -/
def scenarioBOrders : List DominosOrder :=
  [ { order_id := "b1", timestamp := 1, location := "L1", order_total := 10,
      pizza_types := ["margherita"], quantity := 1, data_source := "mock" },
    { order_id := "b2", timestamp := 2, location := "L1", order_total := 10,
      pizza_types := ["margherita"], quantity := 1, data_source := "mock" },
    { order_id := "b3", timestamp := 3, location := "L1", order_total := 10,
      pizza_types := ["margherita"], quantity := 1, data_source := "mock" },
    { order_id := "b4", timestamp := 4, location := "L1", order_total := 10,
      pizza_types := ["margherita"], quantity := 1, data_source := "mock" },
    { order_id := "b5", timestamp := 5, location := "L1", order_total := 100,
      pizza_types := ["margherita"], quantity := 1, data_source := "mock" } ]

/-- The anomaly record produced for scenario B's 100-value order. -/
def scenarioBAnomaly : AnomalyDetection :=
  { timestamp := 5
    anomaly_type := "order_spike"
    severity := "high"
    data_source := "mock"
    confidence_score := 4/5
    order_id := "b5"
    location := "L1" }

/-- Linear-interpolation quantiles are monotone in the quantile level: for
`0 <= q <= q' <= 1`, the interpolated order statistic at `q` is at most the
one at `q'`.  Consequence: the Q1/Q3 outlier fences can never invert. -/
theorem quantileLinear_mono (xs : List ℚ) {q q' : ℚ}
    (hq0 : 0 ≤ q) (hqq : q ≤ q') (hq1 : q' ≤ 1) :
    quantileLinear xs q ≤ quantileLinear xs q' := by
  simp only [quantileLinear]
  set s := xs.insertionSort (fun a b => a ≤ b) with hs
  by_cases hemp : s.isEmpty
  · simp [hemp]
  · simp only [hemp, if_false, Bool.false_eq_true]
    have hsorted : s.Sorted (fun a b => a ≤ b) := by
      rw [hs]
      exact List.sorted_insertionSort _ xs
    have hne : s ≠ [] := by
      intro h
      rw [h] at hemp
      simp at hemp
    have hn0 : 0 < s.length := List.length_pos.mpr hne
    set m := s.length - 1 with hm
    have hmlen : m + 1 = s.length := by omega
    have hmc : (0 : ℚ) ≤ (m : ℚ) := Nat.cast_nonneg m
    set pos := q * ((m : ℕ) : ℚ) with hpos
    set pos' := q' * ((m : ℕ) : ℚ) with hpos'
    have hpos0 : 0 ≤ pos := mul_nonneg hq0 hmc
    have hposmono : pos ≤ pos' := mul_le_mul_of_nonneg_right hqq hmc
    have hpos'le : pos' ≤ (m : ℚ) := by
      rw [hpos']
      exact mul_le_of_le_one_left hmc hq1
    have hfl_mono : Int.floor pos ≤ Int.floor pos' := Int.floor_le_floor hposmono
    have hfl0 : 0 ≤ Int.floor pos := Int.floor_nonneg.mpr hpos0
    have hfl0' : 0 ≤ Int.floor pos' := le_trans hfl0 hfl_mono
    have hfl'le : Int.floor pos' ≤ (m : ℤ) := by
      have h1 := Int.floor_le_floor hpos'le
      rwa [Int.floor_natCast] at h1
    set i := (Int.floor pos).toNat with hi
    set i' := (Int.floor pos').toNat with hi'
    have hii' : i ≤ i' := Int.toNat_le_toNat hfl_mono
    have hi'm : i' ≤ m := by omega
    have him : i ≤ m := le_trans hii' hi'm
    have hi_lt : i < s.length := by omega
    have hi'_lt : i' < s.length := by omega
    have hmono : ∀ a b : ℕ, a ≤ b → b < s.length → s.getD a 0 ≤ s.getD b 0 := by
      intro a b hab hb
      have ha : a < s.length := lt_of_le_of_lt hab hb
      rw [List.getD_eq_getElem _ _ ha, List.getD_eq_getElem _ _ hb]
      have h2 := hsorted.rel_get_of_le (a := ⟨a, ha⟩) (b := ⟨b, hb⟩)
        (Fin.mk_le_mk.mpr hab)
      simpa [List.get_eq_getElem] using h2
    have hfr0 : 0 ≤ pos - ((Int.floor pos : ℤ) : ℚ) := by
      have h3 := Int.floor_le pos
      linarith
    have hfr1 : pos - ((Int.floor pos : ℤ) : ℚ) ≤ 1 := by
      have h3 := Int.lt_floor_add_one pos
      push_cast at h3
      linarith
    have hfr0' : 0 ≤ pos' - ((Int.floor pos' : ℤ) : ℚ) := by
      have h3 := Int.floor_le pos'
      linarith
    rcases h1 : s.get? (i + 1) with - | v1 <;>
      rcases h2 : s.get? (i' + 1) with - | v2 <;> dsimp only
    · exact hmono i i' hii' hi'_lt
    · have hle1 := List.get?_eq_none.mp h1
      rcases List.get?_eq_some.mp h2 with ⟨hlt2, -⟩
      omega
    · have hle2 := List.get?_eq_none.mp h2
      rcases List.get?_eq_some.mp h1 with ⟨hlt1, hg1⟩
      have hv1 : s.getD (i + 1) 0 = v1 := by
        rw [List.getD_eq_getElem _ _ hlt1]
        rw [List.get_eq_getElem] at hg1
        exact hg1
      have hd1 : 0 ≤ v1 - s.getD i 0 := by
        have h4 := hmono i (i + 1) (by omega) hlt1
        rw [hv1] at h4
        linarith
      have hup : s.getD i 0 +
          (pos - ((Int.floor pos : ℤ) : ℚ)) * (v1 - s.getD i 0) ≤ v1 := by
        nlinarith [mul_nonneg
          (by linarith : (0:ℚ) ≤ 1 - (pos - ((Int.floor pos : ℤ) : ℚ))) hd1]
      have hstep : v1 ≤ s.getD i' 0 := by
        rw [← hv1]
        exact hmono (i + 1) i' (by omega) hi'_lt
      linarith
    · rcases List.get?_eq_some.mp h1 with ⟨hlt1, hg1⟩
      rcases List.get?_eq_some.mp h2 with ⟨hlt2, hg2⟩
      have hv1 : s.getD (i + 1) 0 = v1 := by
        rw [List.getD_eq_getElem _ _ hlt1]
        rw [List.get_eq_getElem] at hg1
        exact hg1
      have hv2 : s.getD (i' + 1) 0 = v2 := by
        rw [List.getD_eq_getElem _ _ hlt2]
        rw [List.get_eq_getElem] at hg2
        exact hg2
      have hd1 : 0 ≤ v1 - s.getD i 0 := by
        have h4 := hmono i (i + 1) (by omega) hlt1
        rw [hv1] at h4
        linarith
      have hd2 : 0 ≤ v2 - s.getD i' 0 := by
        have h4 := hmono i' (i' + 1) (by omega) hlt2
        rw [hv2] at h4
        linarith
      by_cases hcase : i = i'
      · have hflooreq : Int.floor pos = Int.floor pos' := by omega
        have hveq : v1 = v2 := by
          rw [← hv1, ← hv2, hcase]
        have hfle : pos - ((Int.floor pos : ℤ) : ℚ) ≤
            pos' - ((Int.floor pos' : ℤ) : ℚ) := by
          rw [hflooreq]
          linarith
        rw [hcase, hveq]
        nlinarith [mul_le_mul_of_nonneg_right hfle hd2]
      · have hlt : i + 1 ≤ i' := by omega
        have hup : s.getD i 0 +
            (pos - ((Int.floor pos : ℤ) : ℚ)) * (v1 - s.getD i 0) ≤ v1 := by
          nlinarith [mul_nonneg
            (by linarith : (0:ℚ) ≤ 1 - (pos - ((Int.floor pos : ℤ) : ℚ))) hd1]
        have hstep : v1 ≤ s.getD i' 0 := by
          rw [← hv1]
          exact hmono (i + 1) i' hlt hi'_lt
        have hlow : s.getD i' 0 ≤ s.getD i' 0 +
            (pos' - ((Int.floor pos' : ℤ) : ℚ)) * (v2 - s.getD i' 0) := by
          nlinarith [mul_nonneg hfr0' hd2]
        linarith

/-- The lower fence `Q1 - 3*IQR` never exceeds the upper fence
`Q3 + 3*IQR`, since `Q1 <= Q3` by quantile monotonicity.  Hence an order
below the lower fence is never above the upper fence. -/
theorem iqrFence_le (totals : List ℚ) :
    iqrLowerFence totals ≤ iqrUpperFence totals := by
  have h := quantileLinear_mono totals (by norm_num : (0:ℚ) ≤ 1/4)
    (by norm_num : (1/4:ℚ) ≤ 3/4) (by norm_num : (3/4:ℚ) ≤ 1)
  unfold iqrLowerFence iqrUpperFence
  linarith

/-- C7: the order-value outlier detector flags exactly the orders whose
total lies strictly outside the fence `(Q1 - 3*IQR, Q3 + 3*IQR)`, and the
labelling follows the fence side: the output is precisely the out-of-fence
orders mapped to anomaly records labelled `order_spike`/`high` above the
upper fence and `order_dip`/`medium` otherwise; every order above the upper
fence is reported as `order_spike`/`high`; every order below the lower
fence is reported as `order_dip`/`medium` (it cannot be above the upper
fence, by `iqrFence_le`); every flagged record carries one of those two
label pairs; and on scenario B's totals `[10,10,10,10,100]` exactly the
100-value order is flagged, as `order_spike`/`high`. -/
theorem order_value_outlier_spec :
    (∀ orders : List DominosOrder,
      detectOrderVolumeAnomalies orders =
        (orders.filter (fun o =>
          decide (o.order_total <
            iqrLowerFence (orders.map (fun o => o.order_total))) ||
          decide (iqrUpperFence (orders.map (fun o => o.order_total)) <
            o.order_total))).map (fun o =>
            { timestamp := o.timestamp
              anomaly_type :=
                if iqrUpperFence (orders.map (fun o => o.order_total)) <
                    o.order_total then "order_spike"
                else "order_dip"
              severity :=
                if iqrUpperFence (orders.map (fun o => o.order_total)) <
                    o.order_total then "high"
                else "medium"
              data_source := o.data_source
              confidence_score := 4/5
              order_id := o.order_id
              location := o.location })) ∧
    (∀ (orders : List DominosOrder) (o : DominosOrder),
      o ∈ orders →
      iqrUpperFence (orders.map (fun o => o.order_total)) < o.order_total →
      ∃ a ∈ detectOrderVolumeAnomalies orders,
        a.order_id = o.order_id ∧ a.timestamp = o.timestamp ∧
        a.anomaly_type = "order_spike" ∧ a.severity = "high") ∧
    (∀ (orders : List DominosOrder) (o : DominosOrder),
      o ∈ orders →
      o.order_total < iqrLowerFence (orders.map (fun o => o.order_total)) →
      ∃ a ∈ detectOrderVolumeAnomalies orders,
        a.order_id = o.order_id ∧ a.timestamp = o.timestamp ∧
        a.anomaly_type = "order_dip" ∧ a.severity = "medium") ∧
    (∀ (orders : List DominosOrder) (a : AnomalyDetection),
      a ∈ detectOrderVolumeAnomalies orders →
      (a.anomaly_type = "order_spike" ∧ a.severity = "high") ∨
      (a.anomaly_type = "order_dip" ∧ a.severity = "medium")) ∧
    detectOrderVolumeAnomalies scenarioBOrders = [scenarioBAnomaly] := by
  refine ⟨?_, ?_, ?_, ?_, by decide⟩
  · intro orders
    unfold detectOrderVolumeAnomalies
    split
    case isTrue h =>
      rw [List.isEmpty_iff] at h
      subst h
      rfl
    case isFalse h => rfl
  · intro orders o ho hup
    unfold detectOrderVolumeAnomalies
    rw [if_neg]
    · refine ⟨_, List.mem_map_of_mem _ (List.mem_filter.mpr ⟨ho, ?_⟩),
        rfl, rfl, ?_, ?_⟩
      · simp [hup]
      · simp [hup]
      · simp [hup]
    · rw [List.isEmpty_iff]
      intro he
      rw [he] at ho
      simp at ho
  · intro orders o ho hlo
    have hnotup : ¬(iqrUpperFence (orders.map (fun o => o.order_total)) <
        o.order_total) := by
      have hf := iqrFence_le (orders.map (fun o => o.order_total))
      exact not_lt.mpr (le_trans (le_of_lt hlo) hf)
    unfold detectOrderVolumeAnomalies
    rw [if_neg]
    · refine ⟨_, List.mem_map_of_mem _ (List.mem_filter.mpr ⟨ho, ?_⟩),
        rfl, rfl, ?_, ?_⟩
      · simp [hlo]
      · simp [hnotup]
      · simp [hnotup]
    · rw [List.isEmpty_iff]
      intro he
      rw [he] at ho
      simp at ho
  · intro orders a ha
    unfold detectOrderVolumeAnomalies at ha
    split at ha
    · simp at ha
    · obtain ⟨o, -, rfl⟩ := List.mem_map.mp ha
      by_cases hc : iqrUpperFence (orders.map (fun o => o.order_total)) <
          o.order_total
      · left
        simp [hc]
      · right
        simp [hc]

/-- Five orders with totals 10,10,10,10,1: the 1-value order sits below the
lower fence, exercising the dip direction. -/
def c7DipOrders : List DominosOrder :=
  [ { order_id := "d1", timestamp := 1, location := "L1", order_total := 10,
      pizza_types := ["margherita"], quantity := 1, data_source := "mock" },
    { order_id := "d2", timestamp := 2, location := "L1", order_total := 10,
      pizza_types := ["margherita"], quantity := 1, data_source := "mock" },
    { order_id := "d3", timestamp := 3, location := "L1", order_total := 10,
      pizza_types := ["margherita"], quantity := 1, data_source := "mock" },
    { order_id := "d4", timestamp := 4, location := "L1", order_total := 10,
      pizza_types := ["margherita"], quantity := 1, data_source := "mock" },
    { order_id := "d5", timestamp := 5, location := "L1", order_total := 1,
      pizza_types := ["margherita"], quantity := 1, data_source := "mock" } ]

/-- Witness for `order_value_outlier_spec`: scenario B's 100-value order is
flagged `order_spike`/`high`; the 1-value order of the dip data set is
flagged `order_dip`/`medium`; and the scenario-B record carries one of the
two admissible label pairs. -/
theorem order_value_outlier_spec_witness :
    (∃ a ∈ detectOrderVolumeAnomalies scenarioBOrders,
        a.order_id = "b5" ∧ a.timestamp = 5 ∧
        a.anomaly_type = "order_spike" ∧ a.severity = "high") ∧
    (∃ a ∈ detectOrderVolumeAnomalies c7DipOrders,
        a.order_id = "d5" ∧ a.timestamp = 5 ∧
        a.anomaly_type = "order_dip" ∧ a.severity = "medium") ∧
    ((scenarioBAnomaly.anomaly_type = "order_spike" ∧
        scenarioBAnomaly.severity = "high") ∨
      (scenarioBAnomaly.anomaly_type = "order_dip" ∧
        scenarioBAnomaly.severity = "medium")) :=
  ⟨order_value_outlier_spec.2.1 scenarioBOrders
      ⟨"b5", 5, "L1", 100, ["margherita"], 1, "mock"⟩ (by decide) (by decide),
   order_value_outlier_spec.2.2.1 c7DipOrders
      ⟨"d5", 5, "L1", 1, ["margherita"], 1, "mock"⟩ (by decide) (by decide),
   order_value_outlier_spec.2.2.2.1 scenarioBOrders scenarioBAnomaly
      (by decide)⟩

/-- C8: for each outcome in {home, away, draw}, the outcome-impact detector
emits a `spike` pattern tagged `post_match` exactly when that outcome's
subset has at least 3 matches and its mean post-match order count exceeds
1.2 times the overall mean, with confidence
`(subset_count/total_count) * min(subset_count/10, 1)` capped at 1 and
sample size the subset count; the emitted pattern appears in the detector's
output, and no pattern is emitted for a subset with fewer than 3 matches or
a mean not exceeding the threshold. -/
theorem outcome_impact_spike_spec :
    ∀ (rows : List MatchMetricsRow) (outcome : String),
      outcome ∈ (["home", "away", "draw"] : List String) →
      (3 ≤ (rows.filter (fun r => r.winner == outcome)).length →
        listMeanQ (rows.map (fun r => (r.post_match.order_count : ℚ))) * (6/5) <
          listMeanQ ((rows.filter (fun r => r.winner == outcome)).map
            (fun r => (r.post_match.order_count : ℚ))) →
        ∃ p : TemporalPattern,
          outcomeImpactPattern rows outcome = some p ∧
          p.pattern_type = "spike" ∧
          p.time_period = "post_match" ∧
          p.confidence =
            min ((((rows.filter (fun r => r.winner == outcome)).length : ℚ) /
                (rows.length : ℚ)) *
              min (((rows.filter (fun r => r.winner == outcome)).length : ℚ) / 10)
                1) 1 ∧
          p.sample_size = (rows.filter (fun r => r.winner == outcome)).length ∧
          p ∈ analyzeOutcomeImpactPatterns rows) ∧
      ((rows.filter (fun r => r.winner == outcome)).length < 3 →
        outcomeImpactPattern rows outcome = none) ∧
      (¬(listMeanQ (rows.map (fun r => (r.post_match.order_count : ℚ))) * (6/5) <
          listMeanQ ((rows.filter (fun r => r.winner == outcome)).map
            (fun r => (r.post_match.order_count : ℚ)))) →
        outcomeImpactPattern rows outcome = none) := by
  intro rows outcome hmem
  refine ⟨?_, ?_, ?_⟩
  · intro h3 hgt
    have hlen : rows.length ≠ 0 := by
      have hle := List.length_filter_le (fun r => r.winner == outcome) rows
      omega
    have hp : outcomeImpactPattern rows outcome =
        some
          { time_period := "post_match"
            pattern_type := "spike"
            magnitude :=
              min ((listMeanQ ((rows.filter (fun r => r.winner == outcome)).map
                    (fun r => (r.post_match.order_count : ℚ))) -
                  listMeanQ (rows.map (fun r => (r.post_match.order_count : ℚ)))) /
                listMeanQ (rows.map (fun r => (r.post_match.order_count : ℚ))) *
                100) 100
            confidence := calculatePatternConfidence
              (rows.filter (fun r => r.winner == outcome)).length rows.length
            sample_size := (rows.filter (fun r => r.winner == outcome)).length } := by
      unfold outcomeImpactPattern
      rw [if_pos h3, if_pos hgt]
    refine ⟨_, hp, rfl, rfl, ?_, rfl, ?_⟩
    · show calculatePatternConfidence _ _ = _
      unfold calculatePatternConfidence
      rw [if_neg hlen]
    · unfold analyzeOutcomeImpactPatterns
      refine List.mem_append_left _ ?_
      exact List.mem_filterMap.mpr ⟨outcome, hmem, hp⟩
  · intro h3
    unfold outcomeImpactPattern
    rw [if_neg (by omega)]
  · intro hng
    unfold outcomeImpactPattern
    by_cases h3 : 3 ≤ (rows.filter (fun r => r.winner == outcome)).length
    · rw [if_pos h3, if_neg hng]
    · rw [if_neg h3]

/-- A metrics row with the given winner tag and post-match order count, all
other attributes fixed; used to instantiate the outcome-impact theorem. -/
def c8Row (winner : String) (postCount : ℕ) : MatchMetricsRow :=
  { match_id := "m8"
    match_timestamp := 0
    home_team := "Home FC"
    away_team := "Away FC"
    home_score := 1
    away_score := 0
    event_type := "win"
    match_significance := "regular"
    data_source := "mock"
    winner := winner
    total_goals := 1
    is_high_scoring := false
    pre_match := zeroPeriodMetrics
    during_match := zeroPeriodMetrics
    post_match :=
      { order_count := postCount, total_volume := 10, avg_order_value := 10,
        pizza_count := 1, unique_locations := 1,
        orders_per_hour := (postCount : ℚ) / 2 } }

/-- Three home wins with 2 post-match orders each and one away win with
none: the home subset's mean (2) exceeds 1.2 times the overall mean (3/2). -/
def c8Rows : List MatchMetricsRow :=
  [c8Row "home" 2, c8Row "home" 2, c8Row "home" 2, c8Row "away" 0]

/-- Witness for `outcome_impact_spike_spec` at the concrete row set. -/
theorem outcome_impact_spike_spec_witness :
    ∃ p : TemporalPattern,
      outcomeImpactPattern c8Rows "home" = some p ∧
      p.pattern_type = "spike" ∧
      p.time_period = "post_match" ∧
      p.confidence =
        min ((((c8Rows.filter (fun r => r.winner == "home")).length : ℚ) /
            (c8Rows.length : ℚ)) *
          min (((c8Rows.filter (fun r => r.winner == "home")).length : ℚ) / 10)
            1) 1 ∧
      p.sample_size = (c8Rows.filter (fun r => r.winner == "home")).length ∧
      p ∈ analyzeOutcomeImpactPatterns c8Rows :=
  (outcome_impact_spike_spec c8Rows "home" (by decide)).1 (by decide) (by decide)
